import Mathlib

/-!
Shallow embedding of `src/agent.py` (text-moderation agent glue code).

The file declares a `Deps` dataclass, constructs an agent with `retries=2`,
and registers two async tool functions, `analyze_text` and
`get_moderation_recommendation`, which delegate to five opaque external
async helpers from the unseen `agent_tools` module.

Modelling decisions:
* Python dictionaries with string keys are association lists (`Dict`);
  indexing `d[k]` is `lookup`, which raises `Err.keyError` when the key is
  absent (Python `KeyError`), and `vlookup` on a general value, which
  raises `Err.typeError` when the value is not a dict (Python `TypeError`).
* Python values are the inductive `Value`; `Value.none` is Python `None`.
* The five external async helpers are oracle parameters (`Externals`): each
  takes the read-only `Deps` plus its call-site arguments and returns
  `Except Err Value` — an `Except.error` models the helper raising an
  exception, which the tool code never catches.
* Each tool threads an explicit `RunCtx` (the `ctx : RunContext[Deps]`)
  holding the dependency record and an ordered trace of external calls;
  sequential `await` is modelled by the strict left-to-right evaluation of
  the nested matches, so a call appears in the trace exactly when the
  Python code would have awaited it, in the same order.
* Floats are modelled as `Rat` (the claims about them only compare against
  the decimal literals 0.0, 0.7 and 1.0, all exactly representable).
* The `logfire` spans are logging only and are not modelled.
-/

/-- Opaque stand-in for `httpx.AsyncClient`: the code only stores and passes
the handle, never inspects it. -/
structure AsyncClient where
  id : Nat
deriving DecidableEq

/-- Python runtime values, as far as this file manipulates them. `ext` tags
opaque payloads produced by the external helpers. -/
inductive Value where
  | none : Value
  | str : String → Value
  | int : Int → Value
  | bool : Bool → Value
  | list : List Value → Value
  | dict : List (String × Value) → Value
  | ext : Nat → Value

/-- A Python dict with string keys, in insertion order. -/
abbrev Dict := List (String × Value)

/-- Exceptions that the embedded code can observe: Python `KeyError`,
`TypeError` on non-dict indexing, and opaque exceptions raised by the
external helpers. -/
inductive Err where
  | keyError : String → Err
  | typeError : Err
  | extErr : Nat → Err
deriving DecidableEq

/-- `d[k]` on a dict: first entry with the key, else `KeyError` (src/agent.py
uses plain indexing everywhere, e.g. `analysis_result["text"]`). -/
def lookup (d : Dict) (k : String) : Except Err Value :=
  match d.find? (fun p => p.1 == k) with
  | some p => Except.ok p.2
  | none => Except.error (Err.keyError k)

/-- `v[k]` on a general value: dict indexing when `v` is a dict, otherwise a
`TypeError` (the decision returned by the external helper is indexed
directly in src/agent.py line 101). -/
def vlookup (v : Value) (k : String) : Except Err Value :=
  match v with
  | Value.dict d => lookup d k
  | _ => Except.error Err.typeError

/-- The keys of a dict, in order. -/
def keys (d : Dict) : List String := d.map Prod.fst

/-- Whether `d[k]` would succeed. -/
def hasKey (d : Dict) (k : String) : Bool :=
  ((lookup d k).toOption).isSome

/-- Python equality of a value against a string literal, as in
`decision["action"] != "approve"`. -/
def Value.isStrEq (v : Value) (s : String) : Bool :=
  match v with
  | Value.str t => t == s
  | _ => false

/-- Python `None` for an optional string argument. -/
def optStr : Option String → Value
  | Option.none => Value.none
  | Option.some s => Value.str s

/-- The `Deps` dataclass of src/agent.py lines 25-33, defaults included.
Nothing in the code constrains `sensitivity_threshold` beyond its default. -/
structure Deps where
  client : AsyncClient
  moderation_api_key : Option String := Option.none
  custom_content_policies : Option (List (String × List String)) := Option.none
  sensitivity_threshold : Rat := 0.7
  store_flagged_content : Bool := true
  auto_moderate : Bool := false

/-- A `Deps` built from a client alone, every other field at its dataclass
default (as `Deps(client=client)` would in Python). -/
def mkDeps (client : AsyncClient) : Deps := { client := client }

/-- One awaited call to an external helper, with the arguments passed at the
call site. -/
inductive ExtCall where
  | toxicity : String → ExtCall
  | sensitive : String → ExtCall
  | categorize : String → Option String → ExtCall
  | decision : Value → ExtCall
  | suggestEdits : Value → Value → ExtCall

/-- The five opaque async helpers imported from `agent_tools`, as oracles:
each reads the dependency record and may raise. -/
structure Externals where
  check_text_toxicity : Deps → String → Except Err Value
  detect_sensitive_information : Deps → String → Except Err Value
  categorize_content : Deps → String → Option String → Except Err Value
  get_moderation_decision : Deps → Value → Except Err Value
  suggest_content_edits : Deps → Value → Value → Except Err Value

/-- The run context: the dependency record plus the ordered trace of
external calls awaited so far. -/
structure RunCtx where
  deps : Deps
  trace : List ExtCall

/-- Whether the trace contains a call to the edit-suggestion helper. -/
def calledSuggest (tr : List ExtCall) : Bool :=
  tr.any fun c =>
    match c with
    | ExtCall.suggestEdits _ _ => true
    | _ => false

/-- The `analyze_text` tool (src/agent.py lines 42-79): awaits the toxicity,
sensitive-information and categorization helpers in that order, then returns
the six-key result dict. An exception from any helper propagates unchanged. -/
def analyze_text (E : Externals) (ctx : RunCtx) (text : String)
    (context : Option String) (user_id : Option String) :
    RunCtx × Except Err Dict :=
  match E.check_text_toxicity ctx.deps text with
  | Except.error e =>
      ({ deps := ctx.deps, trace := ctx.trace ++ [ExtCall.toxicity text] },
       Except.error e)
  | Except.ok toxicity_result =>
      match E.detect_sensitive_information ctx.deps text with
      | Except.error e =>
          ({ deps := ctx.deps,
             trace := ctx.trace ++ [ExtCall.toxicity text, ExtCall.sensitive text] },
           Except.error e)
      | Except.ok sensitive_info =>
          match E.categorize_content ctx.deps text context with
          | Except.error e =>
              ({ deps := ctx.deps,
                 trace := ctx.trace ++
                   [ExtCall.toxicity text, ExtCall.sensitive text,
                    ExtCall.categorize text context] },
               Except.error e)
          | Except.ok categories =>
              ({ deps := ctx.deps,
                 trace := ctx.trace ++
                   [ExtCall.toxicity text, ExtCall.sensitive text,
                    ExtCall.categorize text context] },
               Except.ok
                 [("text", Value.str text),
                  ("toxicity", toxicity_result),
                  ("sensitive_information", sensitive_info),
                  ("categories", categories),
                  ("context", optStr context),
                  ("user_id", optStr user_id)])

/-- The return-dict literal of `get_moderation_recommendation`
(src/agent.py lines 104-113), with its key lookups evaluated in Python's
left-to-right dict-literal order; any `KeyError` propagates. -/
def buildRecommendation (analysis_result : Dict) (decision : Value)
    (suggested_edits : Value) : Except Err Dict :=
  match lookup analysis_result "text" with
  | Except.error e => Except.error e
  | Except.ok text =>
      match vlookup decision "action" with
      | Except.error e => Except.error e
      | Except.ok action =>
          match vlookup decision "confidence" with
          | Except.error e => Except.error e
          | Except.ok confidence =>
              match vlookup decision "reasons" with
              | Except.error e => Except.error e
              | Except.ok reasons =>
                  match vlookup decision "policy_violations" with
                  | Except.error e => Except.error e
                  | Except.ok violations =>
                      match lookup analysis_result "toxicity" with
                      | Except.error e => Except.error e
                      | Except.ok toxicity =>
                          match lookup analysis_result "categories" with
                          | Except.error e => Except.error e
                          | Except.ok categories =>
                              Except.ok
                                [("original_text", text),
                                 ("decision", action),
                                 ("confidence", confidence),
                                 ("reasons", reasons),
                                 ("policy_violations", violations),
                                 ("suggested_edits", suggested_edits),
                                 ("toxicity_scores", toxicity),
                                 ("categories", categories)]

/-- The `get_moderation_recommendation` tool (src/agent.py lines 81-113):
awaits the decision helper, then — when `decision["action"] != "approve"`
and `deps.auto_moderate` — awaits the edit-suggestion helper on
`analysis_result["text"]` and `decision["reasons"]`, and finally builds the
eight-key recommendation dict. -/
def get_moderation_recommendation (E : Externals) (ctx : RunCtx)
    (analysis_result : Dict) : RunCtx × Except Err Dict :=
  match E.get_moderation_decision ctx.deps (Value.dict analysis_result) with
  | Except.error e =>
      ({ deps := ctx.deps,
         trace := ctx.trace ++ [ExtCall.decision (Value.dict analysis_result)] },
       Except.error e)
  | Except.ok decision =>
      match vlookup decision "action" with
      | Except.error e =>
          ({ deps := ctx.deps,
             trace := ctx.trace ++ [ExtCall.decision (Value.dict analysis_result)] },
           Except.error e)
      | Except.ok act =>
          if (!(act.isStrEq "approve")) && ctx.deps.auto_moderate then
            match lookup analysis_result "text" with
            | Except.error e =>
                ({ deps := ctx.deps,
                   trace := ctx.trace ++
                     [ExtCall.decision (Value.dict analysis_result)] },
                 Except.error e)
            | Except.ok text =>
                match vlookup decision "reasons" with
                | Except.error e =>
                    ({ deps := ctx.deps,
                       trace := ctx.trace ++
                         [ExtCall.decision (Value.dict analysis_result)] },
                     Except.error e)
                | Except.ok reasons =>
                    match E.suggest_content_edits ctx.deps text reasons with
                    | Except.error e =>
                        ({ deps := ctx.deps,
                           trace := ctx.trace ++
                             [ExtCall.decision (Value.dict analysis_result),
                              ExtCall.suggestEdits text reasons] },
                         Except.error e)
                    | Except.ok suggested_edits =>
                        ({ deps := ctx.deps,
                           trace := ctx.trace ++
                             [ExtCall.decision (Value.dict analysis_result),
                              ExtCall.suggestEdits text reasons] },
                         buildRecommendation analysis_result decision suggested_edits)
          else
            ({ deps := ctx.deps,
               trace := ctx.trace ++ [ExtCall.decision (Value.dict analysis_result)] },
             buildRecommendation analysis_result decision Value.none)

/-- Modelled from the spec: the system-prompt string lives in the unseen
`agent_prompts` module; the code only passes it through, so its content is
irrelevant and it is modelled as an opaque string constant. -/
def SYSTEM_PROMPT : String := "text moderation system prompt"

/-- The slice of the `pydantic_ai.Agent` configuration that src/agent.py
lines 35-40 actually sets: model identifier, system prompt and the retry
count. No other resilience parameter appears in the construction. -/
structure Agent where
  model : String
  system_prompt : String
  retries : Nat

/-- `text_moderation_agent` as constructed in src/agent.py lines 35-40. -/
def text_moderation_agent : Agent :=
  { model := "openai:gpt-4o", system_prompt := SYSTEM_PROMPT, retries := 2 }

/-- Recognises a result that failed with a `KeyError`. -/
def isKeyError : Except Err Dict → Bool
  | Except.error (Err.keyError _) => true
  | _ => false

/-- Example decision dict: a well-formed output of the decision helper. -/
def decisionDict0 : Dict :=
  [("action", Value.str "reject"),
   ("confidence", Value.int 1),
   ("reasons", Value.list [Value.str "toxic"]),
   ("policy_violations", Value.list [])]

/-- Example analysis dict with the three keys the recommendation step reads. -/
def analysis0 : Dict :=
  [("text", Value.str "hi"),
   ("toxicity", Value.ext 1),
   ("categories", Value.list [])]

/-- Example externals where every helper succeeds. -/
def exOk : Externals :=
  { check_text_toxicity := fun _ _ => Except.ok (Value.ext 1),
    detect_sensitive_information := fun _ _ => Except.ok (Value.list []),
    categorize_content := fun _ _ _ => Except.ok (Value.list [Value.str "general"]),
    get_moderation_decision := fun _ _ => Except.ok (Value.dict decisionDict0),
    suggest_content_edits := fun _ _ _ => Except.ok (Value.str "edited") }

/-- Example externals where the toxicity helper raises. -/
def exToxFail : Externals :=
  { exOk with check_text_toxicity := fun _ _ => Except.error (Err.extErr 3) }

/-- Example externals where the decision helper raises. -/
def exDecFail : Externals :=
  { exOk with
    get_moderation_decision := fun _ _ => Except.error (Err.extErr 7),
    suggest_content_edits := fun _ _ _ => Except.error (Err.extErr 8) }

/-- Example run context with the default dependencies and an empty trace. -/
def ctx0 : RunCtx := { deps := mkDeps ⟨0⟩, trace := [] }

/-- The run context after the recommendation step succeeds on `analysis0`
with `exOk` (auto-moderate is off by default, so only the decision helper
is called). -/
def ctx1 : RunCtx :=
  { deps := mkDeps ⟨0⟩, trace := [ExtCall.decision (Value.dict analysis0)] }

/-- The recommendation dict produced by `exOk` on `analysis0` from `ctx0`. -/
def out1 : Dict :=
  [("original_text", Value.str "hi"),
   ("decision", Value.str "reject"),
   ("confidence", Value.int 1),
   ("reasons", Value.list [Value.str "toxic"]),
   ("policy_violations", Value.list []),
   ("suggested_edits", Value.none),
   ("toxicity_scores", Value.ext 1),
   ("categories", Value.list [])]

/-- A `Deps` whose threshold escapes the documented 0.0-1.0 range: the
dataclass performs no validation, so this value is constructible. -/
def badDeps : Deps := { client := ⟨0⟩, sensitivity_threshold := 2 }

/-- The analysis dict produced by `exOk` on input `"hi"` with no context or
user id. -/
def analyzed0 : Dict :=
  [("text", Value.str "hi"),
   ("toxicity", Value.ext 1),
   ("sensitive_information", Value.list []),
   ("categories", Value.list [Value.str "general"]),
   ("context", Value.none),
   ("user_id", Value.none)]

/-- The run context after `analyze_text` succeeds on `"hi"` from `ctx0`. -/
def ctxA : RunCtx :=
  { deps := mkDeps ⟨0⟩,
    trace := [ExtCall.toxicity "hi", ExtCall.sensitive "hi",
      ExtCall.categorize "hi" Option.none] }

/-- `vlookup` on a dict value is dict lookup. -/
theorem vlookup_dict (d : Dict) (k : String) : vlookup (Value.dict d) k = lookup d k := rfl

/-- `lookup` only fails with a `KeyError` naming the looked-up key. -/
theorem lookup_error_eq {d : Dict} {k : String} {e : Err}
    (h : lookup d k = Except.error e) : e = Err.keyError k := by
  unfold lookup at h
  split at h
  · exact absurd h (by simp)
  · exact (Except.error.inj h).symm

/-- A present key yields some value. -/
theorem hasKey_exists {d : Dict} {k : String} (h : hasKey d k = true) :
    ∃ v, lookup d k = Except.ok v := by
  unfold hasKey at h
  cases hl : lookup d k with
  | ok v => exact ⟨v, rfl⟩
  | error e => rw [hl] at h; simp [Except.toOption] at h

/-- A successful lookup means the key is present. -/
theorem lookup_ok_hasKey {d : Dict} {k : String} {v : Value}
    (h : lookup d k = Except.ok v) : hasKey d k = true := by
  unfold hasKey
  rw [h]
  rfl

/-- C2: on every successful run, `analyze_text` returns exactly the six keys
in order, with `text`, `context` and `user_id` copied unchanged from the
inputs. -/
theorem analyze_text_six_keys (E : Externals) (ctx : RunCtx) (t : String)
    (c u : Option String) (ctx' : RunCtx) (out : Dict)
    (h : analyze_text E ctx t c u = (ctx', Except.ok out)) :
    keys out = ["text", "toxicity", "sensitive_information", "categories",
      "context", "user_id"]
    ∧ lookup out "text" = Except.ok (Value.str t)
    ∧ lookup out "context" = Except.ok (optStr c)
    ∧ lookup out "user_id" = Except.ok (optStr u) := by
  unfold analyze_text at h
  split at h
  · exact absurd (congrArg Prod.snd h) (by simp)
  · split at h
    · exact absurd (congrArg Prod.snd h) (by simp)
    · split at h
      · exact absurd (congrArg Prod.snd h) (by simp)
      · have hout : out = _ := (Except.ok.inj (congrArg Prod.snd h)).symm
        subst hout
        refine ⟨rfl, ?_, ?_, ?_⟩ <;> rfl

/-- Witness for C2 at a concrete input. -/
theorem analyze_text_six_keys_witness :
    keys analyzed0 = ["text", "toxicity", "sensitive_information", "categories",
      "context", "user_id"]
    ∧ lookup analyzed0 "text" = Except.ok (Value.str "hi")
    ∧ lookup analyzed0 "context" = Except.ok (optStr Option.none)
    ∧ lookup analyzed0 "user_id" = Except.ok (optStr Option.none) :=
  analyze_text_six_keys exOk ctx0 "hi" Option.none Option.none ctxA analyzed0 rfl

/-- C3: an exception raised by any of the three external helpers propagates
out of `analyze_text` unchanged, and no result dict is produced; the tool
body catches nothing and validates nothing. -/
theorem analyze_text_error_propagation (E : Externals) (ctx : RunCtx)
    (t : String) (c u : Option String) (e : Err) :
    (E.check_text_toxicity ctx.deps t = Except.error e →
       (analyze_text E ctx t c u).2 = Except.error e)
    ∧ (∀ v, E.check_text_toxicity ctx.deps t = Except.ok v →
        E.detect_sensitive_information ctx.deps t = Except.error e →
        (analyze_text E ctx t c u).2 = Except.error e)
    ∧ (∀ v w, E.check_text_toxicity ctx.deps t = Except.ok v →
        E.detect_sensitive_information ctx.deps t = Except.ok w →
        E.categorize_content ctx.deps t c = Except.error e →
        (analyze_text E ctx t c u).2 = Except.error e) := by
  refine ⟨fun h1 => ?_, fun v h1 h2 => ?_, fun v w h1 h2 h3 => ?_⟩
  · simp [analyze_text, h1]
  · simp [analyze_text, h1, h2]
  · simp [analyze_text, h1, h2, h3]

/-- Witness for C3 at a concrete input: the toxicity helper raises and the
exception comes out unchanged. -/
theorem analyze_text_error_propagation_witness :
    (analyze_text exToxFail ctx0 "hi" Option.none Option.none).2 =
      Except.error (Err.extErr 3) :=
  (analyze_text_error_propagation exToxFail ctx0 "hi" Option.none Option.none
    (Err.extErr 3)).1 rfl

/-- C4: every successful run of `analyze_text` awaits the three helpers
exactly once each, in the order toxicity, sensitive-information,
categorization; the embedding is sequential, so each call completes before
the next is recorded. -/
theorem analyze_text_call_order (E : Externals) (ctx : RunCtx) (t : String)
    (c u : Option String) (ctx' : RunCtx) (out : Dict)
    (h : analyze_text E ctx t c u = (ctx', Except.ok out)) :
    ctx'.trace = ctx.trace ++
      [ExtCall.toxicity t, ExtCall.sensitive t, ExtCall.categorize t c] := by
  unfold analyze_text at h
  split at h
  · exact absurd (congrArg Prod.snd h) (by simp)
  · split at h
    · exact absurd (congrArg Prod.snd h) (by simp)
    · split at h
      · exact absurd (congrArg Prod.snd h) (by simp)
      · simp only [Prod.mk.injEq] at h
        rw [← h.1]

/-- Witness for C4 at a concrete input. -/
theorem analyze_text_call_order_witness :
    ctxA.trace = ctx0.trace ++
      [ExtCall.toxicity "hi", ExtCall.sensitive "hi",
       ExtCall.categorize "hi" Option.none] :=
  analyze_text_call_order exOk ctx0 "hi" Option.none Option.none ctxA analyzed0 rfl

/-- C6: neither tool writes to the dependency record: the dependencies in
the outgoing run context are the construction-time ones, whatever the
externals do and whatever the inputs are. -/
theorem deps_frame (E : Externals) (ctx : RunCtx) (t : String)
    (c u : Option String) (a : Dict) :
    (analyze_text E ctx t c u).1.deps = ctx.deps
    ∧ (get_moderation_recommendation E ctx a).1.deps = ctx.deps := by
  constructor
  · unfold analyze_text
    split
    · rfl
    · split
      · rfl
      · split <;> rfl
  · unfold get_moderation_recommendation
    split
    · rfl
    · split
      · rfl
      · split
        · split
          · rfl
          · split
            · rfl
            · split <;> rfl
        · rfl

/-- Counterexample to C7 as stated: the `Deps` dataclass does not constrain
`sensitivity_threshold`, so a value outside 0.0-1.0 is constructible. -/
theorem sensitivity_threshold_out_of_range_example :
    ¬(0 ≤ badDeps.sensitivity_threshold ∧ badDeps.sensitivity_threshold ≤ 1) := by
  intro h
  have h2 := h.2
  norm_num [badDeps] at h2

/-- C7 amended: the dataclass default for `sensitivity_threshold` (0.7) lies
in the documented 0.0-1.0 range, but the range is not enforced on
construction. -/
theorem sensitivity_threshold_default_in_range (c : AsyncClient) :
    0 ≤ (mkDeps c).sensitivity_threshold
    ∧ (mkDeps c).sensitivity_threshold ≤ 1 := by
  constructor <;> norm_num [mkDeps]

/-- C8: the agent is constructed with a retry count of exactly 2; the
construction (see `Agent` and `text_moderation_agent`) sets no other
resilience parameter. -/
theorem agent_retries_two : text_moderation_agent.retries = 2 := rfl

/-- A failed lookup means the key is absent. -/
theorem lookup_error_hasKey {d : Dict} {k : String} {e : Err}
    (h : lookup d k = Except.error e) : hasKey d k = false := by
  unfold hasKey
  rw [h]
  rfl

/-- What a successful `buildRecommendation` returns: the eight keys in
order, each entry equal to the corresponding source lookup. -/
theorem buildRecommendation_ok_spec (a : Dict) (dec : Value) (se : Value)
    (out : Dict) (h : buildRecommendation a dec se = Except.ok out) :
    keys out = ["original_text", "decision", "confidence", "reasons",
      "policy_violations", "suggested_edits", "toxicity_scores", "categories"]
    ∧ lookup out "original_text" = lookup a "text"
    ∧ lookup out "decision" = vlookup dec "action"
    ∧ lookup out "confidence" = vlookup dec "confidence"
    ∧ lookup out "reasons" = vlookup dec "reasons"
    ∧ lookup out "policy_violations" = vlookup dec "policy_violations"
    ∧ lookup out "suggested_edits" = Except.ok se
    ∧ lookup out "toxicity_scores" = lookup a "toxicity"
    ∧ lookup out "categories" = lookup a "categories" := by
  unfold buildRecommendation at h
  split at h
  · exact absurd h (by simp)
  rename_i x1 text htext
  split at h
  · exact absurd h (by simp)
  rename_i x2 act hact
  split at h
  · exact absurd h (by simp)
  rename_i x3 conf hconf
  split at h
  · exact absurd h (by simp)
  rename_i x4 reas hreas
  split at h
  · exact absurd h (by simp)
  rename_i x5 viol hviol
  split at h
  · exact absurd h (by simp)
  rename_i x6 tox htox
  split at h
  · exact absurd h (by simp)
  rename_i x7 cats hcats
  obtain rfl := Except.ok.inj h
  refine ⟨rfl, ?_, ?_, ?_, ?_, ?_, ?_, ?_, ?_⟩
  · rw [htext]; rfl
  · rw [hact]; rfl
  · rw [hconf]; rfl
  · rw [hreas]; rfl
  · rw [hviol]; rfl
  · rfl
  · rw [htox]; rfl
  · rw [hcats]; rfl

/-- Inversion of a successful `get_moderation_recommendation` run: the
decision was obtained, its action read, the output built from the suggested
edits, and the branch condition determined both the edits value and the
calls awaited. -/
theorem gmr_ok_inv (E : Externals) (ctx : RunCtx) (a : Dict) (ctx' : RunCtx)
    (out : Dict)
    (h : get_moderation_recommendation E ctx a = (ctx', Except.ok out)) :
    ∃ dec act se,
      E.get_moderation_decision ctx.deps (Value.dict a) = Except.ok dec
      ∧ vlookup dec "action" = Except.ok act
      ∧ buildRecommendation a dec se = Except.ok out
      ∧ (((!(act.isStrEq "approve")) && ctx.deps.auto_moderate) = false →
          se = Value.none
          ∧ ctx'.trace = ctx.trace ++ [ExtCall.decision (Value.dict a)])
      ∧ (((!(act.isStrEq "approve")) && ctx.deps.auto_moderate) = true →
          ∃ text reasons,
            lookup a "text" = Except.ok text
            ∧ vlookup dec "reasons" = Except.ok reasons
            ∧ E.suggest_content_edits ctx.deps text reasons = Except.ok se
            ∧ ctx'.trace = ctx.trace ++
                [ExtCall.decision (Value.dict a),
                 ExtCall.suggestEdits text reasons]) := by
  unfold get_moderation_recommendation at h
  split at h
  · exact absurd (congrArg Prod.snd h) (by simp)
  rename_i x1 dec hdec
  split at h
  · exact absurd (congrArg Prod.snd h) (by simp)
  rename_i x2 act hact
  split at h
  · rename_i hcond
    split at h
    · exact absurd (congrArg Prod.snd h) (by simp)
    rename_i x3 text htext
    split at h
    · exact absurd (congrArg Prod.snd h) (by simp)
    rename_i x4 reasons hreas
    split at h
    · exact absurd (congrArg Prod.snd h) (by simp)
    rename_i x5 se hse
    simp only [Prod.mk.injEq] at h
    refine ⟨dec, act, se, hdec, hact, h.2, ?_, ?_⟩
    · intro hf
      rw [hcond] at hf
      simp at hf
    · intro _
      exact ⟨text, reasons, htext, hreas, hse, by rw [← h.1]⟩
  · rename_i hcond
    simp only [Prod.mk.injEq] at h
    refine ⟨dec, act, Value.none, hdec, hact, h.2, ?_, ?_⟩
    · intro _
      exact ⟨rfl, by rw [← h.1]⟩
    · intro htrue
      exact absurd htrue hcond

/-- C1: on every successful recommendation run, `suggested_edits` is
non-null only when the decision action is not `"approve"` and auto-moderate
is on; when auto-moderate is off it is always null; and the edit-suggestion
helper is awaited exactly when the action is not `"approve"` and
auto-moderate is on. -/
theorem suggested_edits_policy (E : Externals) (ctx : RunCtx) (a : Dict)
    (dec act : Value) (ctx' : RunCtx) (out : Dict)
    (hctx : ctx.trace = [])
    (hdec : E.get_moderation_decision ctx.deps (Value.dict a) = Except.ok dec)
    (hact : vlookup dec "action" = Except.ok act)
    (hrun : get_moderation_recommendation E ctx a = (ctx', Except.ok out)) :
    (lookup out "suggested_edits" ≠ Except.ok Value.none →
       act.isStrEq "approve" = false ∧ ctx.deps.auto_moderate = true)
    ∧ (ctx.deps.auto_moderate = false →
       lookup out "suggested_edits" = Except.ok Value.none)
    ∧ calledSuggest ctx'.trace =
        ((!(act.isStrEq "approve")) && ctx.deps.auto_moderate) := by
  obtain ⟨dec', act', se, hdec', hact', hb, hfalse, htrue⟩ :=
    gmr_ok_inv E ctx a ctx' out hrun
  rw [hdec] at hdec'
  obtain rfl := Except.ok.inj hdec'
  rw [hact] at hact'
  obtain rfl := Except.ok.inj hact'
  have hse := (buildRecommendation_ok_spec a dec se out hb).2.2.2.2.2.2.1
  cases hcond : (!(act.isStrEq "approve")) && ctx.deps.auto_moderate with
  | false =>
      obtain ⟨rfl, htr⟩ := hfalse hcond
      refine ⟨fun hne => absurd hse hne, fun _ => hse, ?_⟩
      rw [htr, hctx]
      rfl
  | true =>
      obtain ⟨text, reasons, _, _, _, htr⟩ := htrue hcond
      have hc := (Bool.and_eq_true _ _).mp hcond
      refine ⟨fun _ => ⟨?_, hc.2⟩, fun hm => ?_, ?_⟩
      · have h1 := hc.1
        simpa using h1
      · rw [hm] at hcond
        simp at hcond
      · rw [htr, hctx]
        rfl

/-- Witness for C1 at a concrete input (auto-moderate off, action
`"reject"`). -/
theorem suggested_edits_policy_witness :
    (lookup out1 "suggested_edits" ≠ Except.ok Value.none →
       (Value.str "reject").isStrEq "approve" = false
       ∧ ctx0.deps.auto_moderate = true)
    ∧ (ctx0.deps.auto_moderate = false →
       lookup out1 "suggested_edits" = Except.ok Value.none)
    ∧ calledSuggest ctx1.trace =
        ((!((Value.str "reject").isStrEq "approve")) && ctx0.deps.auto_moderate) :=
  suggested_edits_policy exOk ctx0 analysis0 (Value.dict decisionDict0)
    (Value.str "reject") ctx1 out1 rfl rfl rfl rfl

/-- C5: when the external decision helper honours its contract (action is
one of the three moderation verbs), the `decision` entry of every
successful recommendation is one of exactly `"approve"`,
`"flag_for_review"`, `"reject"`. -/
theorem decision_action_range (E : Externals) (ctx : RunCtx) (a : Dict)
    (ctx' : RunCtx) (out : Dict)
    (hcontract : ∀ v dec,
      E.get_moderation_decision ctx.deps v = Except.ok dec →
      ∀ act, vlookup dec "action" = Except.ok act →
        act = Value.str "approve" ∨ act = Value.str "flag_for_review"
          ∨ act = Value.str "reject")
    (hrun : get_moderation_recommendation E ctx a = (ctx', Except.ok out)) :
    lookup out "decision" = Except.ok (Value.str "approve")
    ∨ lookup out "decision" = Except.ok (Value.str "flag_for_review")
    ∨ lookup out "decision" = Except.ok (Value.str "reject") := by
  obtain ⟨dec, act, se, hdec, hact, hb, _, _⟩ := gmr_ok_inv E ctx a ctx' out hrun
  have hout := (buildRecommendation_ok_spec a dec se out hb).2.2.1
  rw [hout, hact]
  rcases hcontract _ dec hdec act hact with hA | hA | hA
  · exact Or.inl (by rw [hA])
  · exact Or.inr (Or.inl (by rw [hA]))
  · exact Or.inr (Or.inr (by rw [hA]))

/-- Witness for C5 at a concrete input. -/
theorem decision_action_range_witness :
    lookup out1 "decision" = Except.ok (Value.str "approve")
    ∨ lookup out1 "decision" = Except.ok (Value.str "flag_for_review")
    ∨ lookup out1 "decision" = Except.ok (Value.str "reject") :=
  decision_action_range exOk ctx0 analysis0 ctx1 out1
    (by
      intro v dec hdec act hact
      obtain rfl := Except.ok.inj hdec
      obtain rfl := Except.ok.inj hact
      exact Or.inr (Or.inr rfl))
    rfl

/-- C9: every successful recommendation has exactly the eight keys in
order, with `original_text`, `toxicity_scores` and `categories` copied
verbatim from the analysis result. -/
theorem recommendation_eight_keys (E : Externals) (ctx : RunCtx) (a : Dict)
    (ctx' : RunCtx) (out : Dict)
    (hrun : get_moderation_recommendation E ctx a = (ctx', Except.ok out)) :
    keys out = ["original_text", "decision", "confidence", "reasons",
      "policy_violations", "suggested_edits", "toxicity_scores", "categories"]
    ∧ lookup out "original_text" = lookup a "text"
    ∧ lookup out "toxicity_scores" = lookup a "toxicity"
    ∧ lookup out "categories" = lookup a "categories" := by
  obtain ⟨dec, act, se, _, _, hb, _, _⟩ := gmr_ok_inv E ctx a ctx' out hrun
  have s := buildRecommendation_ok_spec a dec se out hb
  exact ⟨s.1, s.2.1, s.2.2.2.2.2.2.2.1, s.2.2.2.2.2.2.2.2⟩

/-- Witness for C9 at a concrete input. -/
theorem recommendation_eight_keys_witness :
    keys out1 = ["original_text", "decision", "confidence", "reasons",
      "policy_violations", "suggested_edits", "toxicity_scores", "categories"]
    ∧ lookup out1 "original_text" = lookup analysis0 "text"
    ∧ lookup out1 "toxicity_scores" = lookup analysis0 "toxicity"
    ∧ lookup out1 "categories" = lookup analysis0 "categories" :=
  recommendation_eight_keys exOk ctx0 analysis0 ctx1 out1 rfl

/-- A successful `buildRecommendation` run on a dict-valued decision means
all seven looked-up keys were present. -/
theorem build_ok_hasKeys (a : Dict) (dec : Dict) (se : Value) (out : Dict)
    (h : buildRecommendation a (Value.dict dec) se = Except.ok out) :
    hasKey a "text" = true ∧ hasKey a "toxicity" = true
    ∧ hasKey a "categories" = true ∧ hasKey dec "action" = true
    ∧ hasKey dec "confidence" = true ∧ hasKey dec "reasons" = true
    ∧ hasKey dec "policy_violations" = true := by
  unfold buildRecommendation at h
  split at h
  · exact absurd h (by simp)
  rename_i x1 text htext
  split at h
  · exact absurd h (by simp)
  rename_i x2 act hact
  split at h
  · exact absurd h (by simp)
  rename_i x3 conf hconf
  split at h
  · exact absurd h (by simp)
  rename_i x4 reas hreas
  split at h
  · exact absurd h (by simp)
  rename_i x5 viol hviol
  split at h
  · exact absurd h (by simp)
  rename_i x6 tox htox
  split at h
  · exact absurd h (by simp)
  rename_i x7 cats hcats
  rw [vlookup_dict] at hact hconf hreas hviol
  exact ⟨lookup_ok_hasKey htext, lookup_ok_hasKey htox, lookup_ok_hasKey hcats,
    lookup_ok_hasKey hact, lookup_ok_hasKey hconf, lookup_ok_hasKey hreas,
    lookup_ok_hasKey hviol⟩

/-- A failed `buildRecommendation` run on a dict-valued decision failed with
a `KeyError`, and one of the seven looked-up keys is absent. -/
theorem build_error_info (a : Dict) (dec : Dict) (se : Value) (e : Err)
    (h : buildRecommendation a (Value.dict dec) se = Except.error e) :
    (∃ k, e = Err.keyError k)
    ∧ (hasKey a "text" = false ∨ hasKey a "toxicity" = false
       ∨ hasKey a "categories" = false ∨ hasKey dec "action" = false
       ∨ hasKey dec "confidence" = false ∨ hasKey dec "reasons" = false
       ∨ hasKey dec "policy_violations" = false) := by
  unfold buildRecommendation at h
  split at h
  · rename_i x1 e1 he1
    obtain rfl := Except.error.inj h
    exact ⟨⟨"text", lookup_error_eq he1⟩, Or.inl (lookup_error_hasKey he1)⟩
  rename_i x1 text htext
  split at h
  · rename_i x2 e1 he1
    obtain rfl := Except.error.inj h
    rw [vlookup_dict] at he1
    exact ⟨⟨"action", lookup_error_eq he1⟩,
      Or.inr (Or.inr (Or.inr (Or.inl (lookup_error_hasKey he1))))⟩
  rename_i x2 act hact
  split at h
  · rename_i x3 e1 he1
    obtain rfl := Except.error.inj h
    rw [vlookup_dict] at he1
    exact ⟨⟨"confidence", lookup_error_eq he1⟩,
      Or.inr (Or.inr (Or.inr (Or.inr (Or.inl (lookup_error_hasKey he1)))))⟩
  rename_i x3 conf hconf
  split at h
  · rename_i x4 e1 he1
    obtain rfl := Except.error.inj h
    rw [vlookup_dict] at he1
    exact ⟨⟨"reasons", lookup_error_eq he1⟩,
      Or.inr (Or.inr (Or.inr (Or.inr (Or.inr (Or.inl (lookup_error_hasKey he1))))))⟩
  rename_i x4 reas hreas
  split at h
  · rename_i x5 e1 he1
    obtain rfl := Except.error.inj h
    rw [vlookup_dict] at he1
    exact ⟨⟨"policy_violations", lookup_error_eq he1⟩,
      Or.inr (Or.inr (Or.inr (Or.inr (Or.inr (Or.inr (lookup_error_hasKey he1))))))⟩
  rename_i x5 viol hviol
  split at h
  · rename_i x6 e1 he1
    obtain rfl := Except.error.inj h
    exact ⟨⟨"toxicity", lookup_error_eq he1⟩,
      Or.inr (Or.inl (lookup_error_hasKey he1))⟩
  rename_i x6 tox htox
  split at h
  · rename_i x7 e1 he1
    obtain rfl := Except.error.inj h
    exact ⟨⟨"categories", lookup_error_eq he1⟩,
      Or.inr (Or.inr (Or.inl (lookup_error_hasKey he1)))⟩
  rename_i x7 cats hcats
  exact absurd h (by simp)

/-- A successful recommendation run whose decision helper returned the dict
`dec` had all seven keys present. -/
theorem gmr_ok_present (E : Externals) (ctx : RunCtx) (a : Dict) (dec : Dict)
    (ctx' : RunCtx) (out : Dict)
    (hdec : E.get_moderation_decision ctx.deps (Value.dict a) =
      Except.ok (Value.dict dec))
    (h : get_moderation_recommendation E ctx a = (ctx', Except.ok out)) :
    hasKey a "text" = true ∧ hasKey a "toxicity" = true
    ∧ hasKey a "categories" = true ∧ hasKey dec "action" = true
    ∧ hasKey dec "confidence" = true ∧ hasKey dec "reasons" = true
    ∧ hasKey dec "policy_violations" = true := by
  obtain ⟨dec', act, se, hdec', hact, hb, _, _⟩ := gmr_ok_inv E ctx a ctx' out h
  rw [hdec] at hdec'
  obtain rfl := Except.ok.inj hdec'
  exact build_ok_hasKeys a dec se out hb

/-- A failed recommendation run whose decision helper returned the dict
`dec` and whose edit-suggestion helper cannot raise failed with a
`KeyError`, and one of the seven keys is absent. -/
theorem gmr_error_info (E : Externals) (ctx : RunCtx) (a : Dict) (dec : Dict)
    (ctx' : RunCtx) (e : Err)
    (hdec : E.get_moderation_decision ctx.deps (Value.dict a) =
      Except.ok (Value.dict dec))
    (hsug : ∀ t r, ∃ v, E.suggest_content_edits ctx.deps t r = Except.ok v)
    (h : get_moderation_recommendation E ctx a = (ctx', Except.error e)) :
    (∃ k, e = Err.keyError k)
    ∧ (hasKey a "text" = false ∨ hasKey a "toxicity" = false
       ∨ hasKey a "categories" = false ∨ hasKey dec "action" = false
       ∨ hasKey dec "confidence" = false ∨ hasKey dec "reasons" = false
       ∨ hasKey dec "policy_violations" = false) := by
  unfold get_moderation_recommendation at h
  split at h
  · rename_i x1 e1 he1
    rw [hdec] at he1
    exact absurd he1 (by simp)
  rename_i x1 decision hdecision
  rw [hdec] at hdecision
  obtain rfl := Except.ok.inj hdecision
  split at h
  · rename_i x2 e1 he1
    simp only [Prod.mk.injEq] at h
    obtain rfl := Except.error.inj h.2
    rw [vlookup_dict] at he1
    exact ⟨⟨"action", lookup_error_eq he1⟩,
      Or.inr (Or.inr (Or.inr (Or.inl (lookup_error_hasKey he1))))⟩
  rename_i x2 act hact
  split at h
  · split at h
    · rename_i x3 e1 he1
      simp only [Prod.mk.injEq] at h
      obtain rfl := Except.error.inj h.2
      exact ⟨⟨"text", lookup_error_eq he1⟩, Or.inl (lookup_error_hasKey he1)⟩
    rename_i x3 text htext
    split at h
    · rename_i x4 e1 he1
      simp only [Prod.mk.injEq] at h
      obtain rfl := Except.error.inj h.2
      rw [vlookup_dict] at he1
      exact ⟨⟨"reasons", lookup_error_eq he1⟩,
        Or.inr (Or.inr (Or.inr (Or.inr (Or.inr (Or.inl (lookup_error_hasKey he1))))))⟩
    rename_i x4 reasons hreas
    split at h
    · rename_i x5 e1 he1
      obtain ⟨v, hv⟩ := hsug text reasons
      rw [hv] at he1
      exact absurd he1 (by simp)
    rename_i x5 se hse
    simp only [Prod.mk.injEq] at h
    exact build_error_info a dec se e h.2
  · simp only [Prod.mk.injEq] at h
    exact build_error_info a dec Value.none e h.2

/-- C10 amended: provided the decision helper returns a mapping and the
edit-suggestion helper does not itself raise, the recommendation step fails
with a key-lookup error exactly when one of the seven indexed keys
(`text`/`toxicity`/`categories` of the analysis result,
`action`/`confidence`/`reasons`/`policy_violations` of the decision) is
absent; in particular, when all are present no key-lookup error occurs. -/
theorem missing_key_iff_key_error (E : Externals) (ctx : RunCtx) (a : Dict)
    (dec : Dict)
    (hdec : E.get_moderation_decision ctx.deps (Value.dict a) =
      Except.ok (Value.dict dec))
    (hsug : ∀ t r, ∃ v, E.suggest_content_edits ctx.deps t r = Except.ok v) :
    (∃ k, (get_moderation_recommendation E ctx a).2 =
        Except.error (Err.keyError k))
    ↔ ¬(hasKey a "text" = true ∧ hasKey a "toxicity" = true
        ∧ hasKey a "categories" = true ∧ hasKey dec "action" = true
        ∧ hasKey dec "confidence" = true ∧ hasKey dec "reasons" = true
        ∧ hasKey dec "policy_violations" = true) := by
  constructor
  · rintro ⟨k, hk⟩ hall
    have hg : get_moderation_recommendation E ctx a =
        ((get_moderation_recommendation E ctx a).1,
         Except.error (Err.keyError k)) := by
      rw [← hk]
    obtain ⟨_, hmiss⟩ := gmr_error_info E ctx a dec
      (get_moderation_recommendation E ctx a).1 (Err.keyError k) hdec hsug hg
    rcases hmiss with hm | hm | hm | hm | hm | hm | hm <;> simp [hm] at hall
  · intro hnall
    cases hr : (get_moderation_recommendation E ctx a).2 with
    | error e =>
        have hg : get_moderation_recommendation E ctx a =
            ((get_moderation_recommendation E ctx a).1, Except.error e) := by
          rw [← hr]
        obtain ⟨⟨k, hk⟩, _⟩ := gmr_error_info E ctx a dec
          (get_moderation_recommendation E ctx a).1 e hdec hsug hg
        exact ⟨k, by rw [hk]⟩
    | ok out =>
        have hg : get_moderation_recommendation E ctx a =
            ((get_moderation_recommendation E ctx a).1, Except.ok out) := by
          rw [← hr]
        exact absurd (gmr_ok_present E ctx a dec
          (get_moderation_recommendation E ctx a).1 out hdec hg) hnall

/-- Witness for the amended C10 at a concrete input where every key is
present. -/
theorem missing_key_iff_key_error_witness :
    (∃ k, (get_moderation_recommendation exOk ctx0 analysis0).2 =
        Except.error (Err.keyError k))
    ↔ ¬(hasKey analysis0 "text" = true ∧ hasKey analysis0 "toxicity" = true
        ∧ hasKey analysis0 "categories" = true
        ∧ hasKey decisionDict0 "action" = true
        ∧ hasKey decisionDict0 "confidence" = true
        ∧ hasKey decisionDict0 "reasons" = true
        ∧ hasKey decisionDict0 "policy_violations" = true) :=
  missing_key_iff_key_error exOk ctx0 analysis0 decisionDict0 rfl
    (fun _ _ => ⟨Value.str "edited", rfl⟩)

/-- Counterexample to C10 as stated: with an empty analysis dict (so `text`
is missing) and a decision helper that raises, the recommendation step
fails with the helper's exception, not with a key-lookup error. -/
theorem missing_key_without_key_error :
    hasKey ([] : Dict) "text" = false
    ∧ (get_moderation_recommendation exDecFail ctx0 []).2 =
        Except.error (Err.extErr 7)
    ∧ isKeyError (get_moderation_recommendation exDecFail ctx0 []).2 = false :=
  ⟨rfl, rfl, rfl⟩
